import Mathlib

/-
Verification of the ZapForm backend (src/main.py, src/database.py): a shallow
embedding of the registration and submission flows, the message formatter and
the WhatsApp dispatcher, with theorems settling the specification claims.

Modelling conventions:
- Python dicts that arrive as JSON objects (the submission body) are modelled
  as association lists `List (String × String)` in insertion order; JSON
  objects have unique keys, so first-match lookup coincides with dict lookup.
  Field values are modelled as strings (Python truthiness of a string value is
  emptiness).
- The SQLAlchemy store is modelled as a `List User`; `query(...).first()` is
  `List.find?` over that list.
- Network effects are modelled by passing the provider's behaviour in as an
  explicit `ProviderOutcome` argument and returning the issued request
  alongside the result, so "the dispatcher was invoked" is observable.
- `datetime.now().timestamp()` is an explicit `Int` argument.
- Python `str.title()` is modelled for ASCII letters: a letter is uppercased
  when the previous character is not a letter and lowercased otherwise.
-/

set_option autoImplicit false

namespace ZapForm

/-- Account record, from `class User` in src/database.py (lines 23-34). -/
structure User where
  id : Nat
  name : String
  email : String
  api_key : String
  whatsapp_token : String
  phone_number_id : String
  recipient_number : String
  is_active : Bool
deriving Repr, DecidableEq

/-- Registration request body, from `class UserRegistration` in src/main.py
(validated fields; validators trim and check non-emptiness upstream of the
handler and are not needed by the claims). -/
structure UserRegistration where
  name : String
  email : String
  whatsapp_token : String
  phone_number_id : String
  recipient_number : String
  terms : Bool
deriving Repr, DecidableEq

/-- Python `str.title()` for ASCII: uppercase a letter that follows a
non-letter, lowercase a letter that follows a letter; `prevAlpha` tracks
whether the previous character was a letter. -/
def titleAux : Bool → List Char → List Char
  | _, [] => []
  | prevAlpha, c :: cs =>
    if c.isAlpha then
      (if prevAlpha then c.toLower else c.toUpper) :: titleAux true cs
    else
      c :: titleAux false cs

/-- Model of Python `str.title()` (ASCII letters). -/
def pyTitle (s : String) : String := ⟨titleAux false s.data⟩

/-- `key.replace('_', ' ')`: every underscore character becomes a space. -/
def underscoreToSpace (k : String) : String :=
  ⟨k.data.map fun c => if c = '_' then ' ' else c⟩

/-- `key.replace('_', ' ').title()` from src/main.py line 165. -/
def formatted_key (k : String) : String :=
  pyTitle (underscoreToSpace k)

/-- One emitted message line, `f"*{formatted_key}:* {value}\n"`
(src/main.py line 166). -/
def fieldLine (k v : String) : String :=
  "*" ++ formatted_key k ++ ":* " ++ v ++ "\n"

/-- The loop guard `key != 'api_key' and value` (src/main.py line 164);
a string value is truthy when non-empty. -/
def keepField (p : String × String) : Bool :=
  p.1 != "api_key" && p.2 != ""

/-- The message-building loop of src/main.py lines 163-166: starting from the
accumulated message, append a line for each kept field in iteration order. -/
def buildLoop (acc : String) : List (String × String) → String
  | [] => acc
  | p :: rest =>
    buildLoop (if keepField p then acc ++ fieldLine p.1 p.2 else acc) rest

/-- The header literal of src/main.py line 161. -/
def formatHeader : String := "🔔 *New Contact Form Submission*\n\n"

/-- The footer appended at src/main.py line 168. -/
def formatFooter : String := "\n_Sent via ZapForm_"

/-- The message formatter of src/main.py lines 161-168: header, one line per
kept field in insertion order, footer. -/
def formatMessage (form_data : List (String × String)) : String :=
  buildLoop formatHeader form_data ++ formatFooter

/-- `''.join(filter(str.isdigit, recipient_number))` (src/main.py line 172). -/
def cleanRecipient (s : String) : String :=
  ⟨s.data.filter fun c => c.isDigit⟩

/-- JSON body of the WhatsApp API POST (src/main.py lines 180-187);
`to_number` models the payload's "to" key (`to` is reserved in Lean) and
`text_body` models `payload["text"]["body"]`. -/
structure WaPayload where
  messaging_product : String
  to_number : String
  type : String
  text_body : String
deriving Repr, DecidableEq

/-- The outgoing request: URL (line 175), bearer token (line 177) and JSON
payload of the dispatcher's POST. -/
structure WaRequest where
  url : String
  bearer : String
  payload : WaPayload
deriving Repr, DecidableEq

/-- The slice of a provider 200-response body that the code inspects:
`messages` is `none` when the JSON object has no "messages" key; each entry is
the entry's optional "id" value (`none` when the entry has no "id" key). -/
structure WaResult where
  messages : Option (List (Option String))
deriving Repr, DecidableEq

/-- Behaviour of the provider for one POST: an HTTP response with its status
and parsed JSON body (`none` when the body does not parse as the inspected
shape, so `response.json()` raises), or a transport-level exception. -/
inductive ProviderOutcome where
  | response (status : Nat) (json : Option WaResult) (text : String)
  | exn (msg : String)
deriving Repr, DecidableEq

/-- The mock success value `{"messages": [{"id": f"wamid.mock_{ts}"}]}`
returned at src/main.py lines 198-200 and 205-207. -/
def mockResult (ts : Int) : WaResult :=
  ⟨some [some ("wamid.mock_" ++ toString ts)]⟩

/-- WhatsApp dispatcher, src/main.py lines 152-207: formats the message,
builds the authenticated POST for the normalized recipient, and maps the
provider's outcome to a result — the provider's JSON on HTTP 200, the mock
success value on any non-200 status or any exception (including a body that
fails to parse). Returns the issued request together with the result. -/
def send_whatsapp_message (whatsapp_token phone_number_id recipient_number : String)
    (form_data : List (String × String)) (outcome : ProviderOutcome) (ts : Int) :
    WaRequest × WaResult :=
  let message := formatMessage form_data
  let clean_recipient := cleanRecipient recipient_number
  let req : WaRequest :=
    { url := "https://graph.facebook.com/v17.0/" ++ phone_number_id ++ "/messages"
      bearer := "Bearer " ++ whatsapp_token
      payload :=
        { messaging_product := "whatsapp"
          to_number := clean_recipient
          type := "text"
          text_body := message } }
  let result : WaResult :=
    match outcome with
    | .response status json _ =>
      if status = 200 then
        match json with
        | some r => r
        | none => mockResult ts
      else
        mockResult ts
    | .exn _ => mockResult ts
  (req, result)

/-- The query `db.query(User).filter(User.api_key == api_key,
User.is_active == True).first()` (src/main.py line 272): first stored account
with the given key and `is_active` true. -/
def find_active_by_api_key (db : List User) (key : String) : Option User :=
  db.find? fun u => u.api_key == key && u.is_active

/-- Extraction of the acknowledged delivery identifier (src/main.py line 293):
`whatsapp_result.get("messages", [{}])[0].get("id", f"mock_{ts2}")`.
A missing "messages" key defaults to `[{}]`, whose first entry has no "id", so
the fallback identifier is used; `[0]` on an empty "messages" list raises
`IndexError`, modelled as `.error`. -/
def extractId (r : WaResult) (ts2 : Int) : Except String String :=
  match r.messages with
  | none => .ok ("mock_" ++ toString ts2)
  | some [] => .error "list index out of range"
  | some (none :: _) => .ok ("mock_" ++ toString ts2)
  | some (some i :: _) => .ok i

/-- Response of the generic submission endpoint: an `HTTPException` with its
status code and detail, or the success JSON body
`{"success": ..., "message": ..., "whatsapp_message_id": ...}`. -/
inductive ApiResponse where
  | error (status : Nat) (detail : String)
  | ok (success : Bool) (message : String) (whatsapp_message_id : String)
deriving Repr, DecidableEq

/-- The generic submission endpoint `submit_form_api` (src/main.py lines
261-303). `ts` is the dispatcher's mock timestamp, `ts2` the timestamp of the
fallback identifier at line 293. Returns the HTTP response together with the
list of requests issued to the provider (so non-invocation of the dispatcher
is provable). A falsy (`None` or empty) api_key is a 400; an unknown or
inactive key is a 401; otherwise the api_key field is stripped, the dispatcher
is invoked, and the result's identifier is extracted — an extraction error is
caught by the handler's `except Exception` and becomes a 500. -/
def submit_form_api (form_data : List (String × String)) (db : List User)
    (outcome : ProviderOutcome) (ts ts2 : Int) : ApiResponse × List WaRequest :=
  match form_data.lookup "api_key" with
  | none => (.error 400 "API key is required", [])
  | some api_key =>
    if api_key = "" then
      (.error 400 "API key is required", [])
    else
      match find_active_by_api_key db api_key with
      | none => (.error 401 "Invalid API key", [])
      | some user =>
        let form_fields := form_data.filter fun p => p.1 != "api_key"
        let sent := send_whatsapp_message user.whatsapp_token
          user.phone_number_id user.recipient_number form_fields outcome ts
        match extractId sent.2 ts2 with
        | .ok mid => (.ok true "Form submitted successfully" mid, [sent.1])
        | .error _ => (.error 500 "Failed to submit form", [sent.1])

/-- Behaviour of the SMTP collaborator for one send: delivery succeeded, or
some exception was raised. -/
inductive EmailOutcome where
  | sent
  | failed (msg : String)
deriving Repr, DecidableEq

/-- The Brevo SMTP environment configuration read at src/main.py lines 22-25
(`None` when the variable is unset). -/
structure SmtpConfig where
  smtp_server : Option String
  smtp_port : Option String
  sender_email : Option String
  smtp_password : Option String
deriving Repr, DecidableEq

/-- Python truthiness of an optional environment string: `None` and the empty
string are falsy. -/
def truthy (o : Option String) : Bool :=
  match o with
  | none => false
  | some s => s != ""

/-- The notification collaborator `send_api_key_email` (src/main.py lines
94-149): with missing credentials it only logs a mock message and returns
`True`; otherwise it sends, returning `True` on success and — every exception
being caught — `False` on failure. It never raises. -/
def send_api_key_email (_email _name _api_key : String) (cfg : SmtpConfig)
    (outcome : EmailOutcome) : Bool :=
  if !(truthy cfg.sender_email && truthy cfg.smtp_password) then
    true
  else
    match outcome with
    | .sent => true
    | .failed _ => false

/-- API-key generation, src/main.py line 221: `f"zf_{uuid.uuid4().hex[:24]}"`.
The randomness is the `hex` argument, standing for `uuid.uuid4().hex` — a
32-character lowercase hexadecimal rendering of a random UUID. -/
def generate_api_key (hex : String) : String :=
  "zf_" ++ ⟨hex.data.take 24⟩

/-- Characters allowed in `uuid.uuid4().hex`: lowercase hexadecimal digits. -/
def isLowerHexDigit (c : Char) : Bool :=
  c.isDigit || ('a' ≤ c && c ≤ 'f')

/-- Response of the registration endpoint: an `HTTPException`, or the success
body `{"success": ..., "message": ..., "user": {"id": ..., "name": ...,
"email": ...}}` — note the success body carries no api_key field. -/
inductive RegisterResult where
  | error (status : Nat) (detail : String)
  | ok (success : Bool) (message : String) (user_id : Nat) (user_name : String)
      (user_email : String)
deriving Repr, DecidableEq

/-- The registration endpoint `register_user` (src/main.py lines 209-259).
`hex` stands for the random `uuid.uuid4().hex` draw, `new_id` for the identity
the store assigns on insert (read back by `db.refresh`), `cfg`/`emailOutcome`
drive the notification collaborator, whose return value line 239 discards.
Returns the HTTP response together with the store after the request. -/
def register_user (u : UserRegistration) (db : List User) (hex : String)
    (new_id : Nat) (cfg : SmtpConfig) (emailOutcome : EmailOutcome) :
    RegisterResult × List User :=
  match db.find? (fun x => x.email == u.email) with
  | some _ => (.error 400 "User with this email already exists", db)
  | none =>
    let api_key := generate_api_key hex
    let db_user : User :=
      { id := new_id
        name := u.name
        email := u.email
        api_key := api_key
        whatsapp_token := u.whatsapp_token
        phone_number_id := u.phone_number_id
        recipient_number := u.recipient_number
        is_active := true }
    let db' := db ++ [db_user]
    let _ := send_api_key_email u.email u.name api_key cfg emailOutcome
    (.ok true "Registration successful! Check your email for your API key."
      db_user.id db_user.name db_user.email, db')

/-- Number of stored accounts with the given email. -/
def countEmail (db : List User) (email : String) : Nat :=
  (db.filter fun x => x.email == email).length

/-- Concatenation of a list of strings (the declarative counterpart of the
imperative `message += ...` loop). -/
def concatLines : List String → String
  | [] => ""
  | s :: rest => s ++ concatLines rest

/-- Substring occurrence test: `pat` occurs contiguously in `s`. -/
def containsSub (pat s : String) : Bool :=
  s.data.tails.any fun t => pat.data.isPrefixOf t

-- Theorems ------------------------------------------------------------------

/-- The imperative message-building loop appends exactly one line per kept
field, in iteration order. -/
theorem buildLoop_eq (l : List (String × String)) (acc : String) :
    buildLoop acc l =
      acc ++ concatLines ((l.filter keepField).map fun p => fieldLine p.1 p.2) := by
  induction l generalizing acc with
  | nil => simp [buildLoop, concatLines, String.append_empty]
  | cons p rest ih =>
    by_cases h : keepField p
    · simp only [buildLoop, h, if_pos, List.filter_cons, ih, List.map_cons, concatLines]
      rw [String.append_assoc]
    · simp only [buildLoop, h, if_neg, List.filter_cons, ih, Bool.false_eq_true]
      simp [h]

/-- Looking a key up after filtering that key out yields nothing. -/
theorem lookup_filter_ne (l : List (String × String)) (a : String) :
    (l.filter fun p => p.1 != a).lookup a = none := by
  induction l with
  | nil => rfl
  | cons p rest ih =>
    by_cases h : p.1 = a
    · simp [List.filter_cons, h, ih]
    · simp [List.filter_cons, h, List.lookup_cons, ih]
      exact ⟨fun hc => h hc.symm, fun a1 b _ hne hc => hne hc.symm⟩

/-- A store holding no account with the given email has no findable one. -/
theorem find?_email_of_countEmail_zero {db : List User} {e : String}
    (h : countEmail db e = 0) : db.find? (fun x => x.email == e) = none := by
  rw [List.find?_eq_none]
  intro x hx hpe
  have hmem : x ∈ db.filter fun y => y.email == e := List.mem_filter.mpr ⟨hx, hpe⟩
  rw [countEmail, List.length_eq_zero] at h
  rw [h] at hmem
  exact absurd hmem (List.not_mem_nil x)

/-- C1: when the provider answers with any non-200 status, or any
transport-level exception occurs, the WhatsApp dispatcher propagates no error:
it returns the synthesized mock result, whose single delivery identifier is
the fixed prefix "wamid.mock_" (carrying "mock_") followed by the timestamp,
so the submission flow still reports success. -/
theorem send_whatsapp_message_degrades_to_mock
    (token pnid recipient : String) (form_data : List (String × String))
    (status : Nat) (json : Option WaResult) (text msg : String) (ts : Int)
    (hst : status ≠ 200) :
    (send_whatsapp_message token pnid recipient form_data
        (.response status json text) ts).2 = mockResult ts ∧
    (send_whatsapp_message token pnid recipient form_data (.exn msg) ts).2 =
      mockResult ts ∧
    (mockResult ts).messages = some [some ("wamid.mock_" ++ toString ts)] := by
  refine ⟨?_, rfl, rfl⟩
  simp [send_whatsapp_message, hst]

/-- C1 witness: a provider 503 and a transport exception both yield the mock
result with identifier "wamid.mock_7" at timestamp 7. -/
theorem send_whatsapp_message_degrades_to_mock_witness :
    (send_whatsapp_message "tok" "pn" "+1 555 0100" [("message", "Hello")]
        (.response 503 none "Service Unavailable") 7).2 = mockResult 7 ∧
    (send_whatsapp_message "tok" "pn" "+1 555 0100" [("message", "Hello")]
        (.exn "connection refused") 7).2 = mockResult 7 ∧
    (mockResult 7).messages = some [some ("wamid.mock_" ++ toString (7 : Int))] :=
  send_whatsapp_message_degrades_to_mock "tok" "pn" "+1 555 0100"
    [("message", "Hello")] 503 none "Service Unavailable" "connection refused" 7
    (by decide)

/-- C2 counterexample: on the single field mapping name ↦ Ana the formatter's
output is shown literally; its header line is not "New Contact Form
Submission" (the output does not even start with that text followed by a
newline — it starts with a bell emoji and asterisk markup), and no field line
of the claimed plain form "Name: Ana" occurs anywhere in the output; instead
the decorated line "*Name:* Ana" occurs. -/
theorem formatMessage_plain_shape_counterexample :
    formatMessage [("name", "Ana")] =
      "🔔 *New Contact Form Submission*\n\n*Name:* Ana\n\n_Sent via ZapForm_" ∧
    ("New Contact Form Submission\n".data.isPrefixOf
        (formatMessage [("name", "Ana")]).data) = false ∧
    containsSub "Name: Ana" (formatMessage [("name", "Ana")]) = false ∧
    containsSub "New Contact Form Submission" (formatMessage [("name", "Ana")])
      = true ∧
    containsSub "*Name:* Ana\n" (formatMessage [("name", "Ana")]) = true := by
  exact ⟨by decide, by decide, by decide, by decide, by decide⟩

/-- C2 amended: the formatter output is exactly the header line
"🔔 *New Contact Form Submission*" followed by a blank line, then — for each
field of the mapping whose key is not "api_key" and whose value is non-empty,
in the mapping's insertion order (not sorted) — one line
"*{field name with underscores replaced by spaces, title-cased}:* {value}",
then a blank line and the fixed footer line "_Sent via ZapForm_", as one
multi-line string; the formatter is a pure function, so the same input always
yields the same output. -/
theorem formatMessage_structure (form_data : List (String × String)) :
    formatMessage form_data =
      "🔔 *New Contact Form Submission*\n\n"
        ++ concatLines ((form_data.filter keepField).map fun p =>
            "*" ++ formatted_key p.1 ++ ":* " ++ p.2 ++ "\n")
        ++ "\n_Sent via ZapForm_" := by
  rw [formatMessage, buildLoop_eq]
  rfl

/-- C9: the recipient number placed in the "to" field of the dispatcher's
request is the stored recipient number with every non-digit character
stripped: it equals the digit-filtered character sequence, consists of digits
only, and is a subsequence of the original (digits kept in their original
order). -/
theorem send_whatsapp_message_recipient_normalized
    (token pnid recipient : String) (form_data : List (String × String))
    (outcome : ProviderOutcome) (ts : Int) :
    (send_whatsapp_message token pnid recipient form_data outcome
        ts).1.payload.to_number.data = recipient.data.filter (fun c => c.isDigit) ∧
    ((send_whatsapp_message token pnid recipient form_data outcome
        ts).1.payload.to_number.data.all fun c => c.isDigit) = true ∧
    List.Sublist
      (send_whatsapp_message token pnid recipient form_data outcome
        ts).1.payload.to_number.data recipient.data := by
  refine ⟨rfl, ?_, ?_⟩
  · show ((recipient.data.filter fun c => c.isDigit).all fun c => c.isDigit) = true
    rw [List.all_eq_true]
    intro c hc
    exact (List.mem_filter.mp hc).2
  · show List.Sublist (recipient.data.filter fun c => c.isDigit) recipient.data
    exact List.filter_sublist recipient.data

/-- C3: a submission without an api_key field is a 400 BadRequest, and a
submission whose key matches no stored account that is both keyed by it and
active (unknown key, or account with active = false) is a 401 Unauthorized;
in both cases no request is issued to the WhatsApp provider. -/
theorem submit_form_api_auth_gate (form_data : List (String × String))
    (db : List User) (outcome : ProviderOutcome) (ts ts2 : Int) :
    (form_data.lookup "api_key" = none →
      submit_form_api form_data db outcome ts ts2 =
        (.error 400 "API key is required", [])) ∧
    (∀ k, form_data.lookup "api_key" = some k → k ≠ "" →
      (∀ u ∈ db, ¬(u.api_key = k ∧ u.is_active = true)) →
      submit_form_api form_data db outcome ts ts2 =
        (.error 401 "Invalid API key", [])) := by
  constructor
  · intro h
    simp [submit_form_api, h]
  · intro k hk hne hnone
    have hfind : find_active_by_api_key db k = none := by
      rw [find_active_by_api_key, List.find?_eq_none]
      intro u hu hp
      rw [Bool.and_eq_true, beq_iff_eq] at hp
      exact hnone u hu ⟨hp.1, hp.2⟩
    simp [submit_form_api, hk, hne, hfind]

/-- C3 witness: a body without api_key gives 400; a body whose key names only
an inactive stored account gives 401; neither dispatches. -/
theorem submit_form_api_auth_gate_witness :
    submit_form_api [("name", "Ana")]
        [⟨1, "Ana", "ana@x.com", "zf_abc", "tok", "pn", "+15550100", false⟩]
        (.exn "unreachable") 3 4 = (.error 400 "API key is required", []) ∧
    submit_form_api [("api_key", "zf_abc"), ("message", "Hello")]
        [⟨1, "Ana", "ana@x.com", "zf_abc", "tok", "pn", "+15550100", false⟩]
        (.exn "unreachable") 3 4 = (.error 401 "Invalid API key", []) := by
  have h1 := submit_form_api_auth_gate [("name", "Ana")]
    [⟨1, "Ana", "ana@x.com", "zf_abc", "tok", "pn", "+15550100", false⟩]
    (.exn "unreachable") 3 4
  have h2 := submit_form_api_auth_gate [("api_key", "zf_abc"), ("message", "Hello")]
    [⟨1, "Ana", "ana@x.com", "zf_abc", "tok", "pn", "+15550100", false⟩]
    (.exn "unreachable") 3 4
  exact ⟨h1.1 (by decide), h2.2 "zf_abc" (by decide) (by decide) (by decide)⟩

/-- C10: a submission whose api_key field is present but equal to the empty
string is answered exactly like a missing key — 400 BadRequest with the same
detail, not 401 — for every store, provider behaviour and timestamp (so
neither the account lookup nor the dispatcher can influence the response),
and it equals the response to the same body with the api_key field removed. -/
theorem submit_form_api_empty_key (form_data : List (String × String))
    (db : List User) (outcome : ProviderOutcome) (ts ts2 : Int)
    (h : form_data.lookup "api_key" = some "") :
    submit_form_api form_data db outcome ts ts2 =
      (.error 400 "API key is required", []) ∧
    submit_form_api form_data db outcome ts ts2 =
      submit_form_api (form_data.filter fun p => p.1 != "api_key") db outcome
        ts ts2 := by
  have hmissing :
      submit_form_api (form_data.filter fun p => p.1 != "api_key") db outcome
        ts ts2 = (.error 400 "API key is required", []) := by
    simp [submit_form_api, lookup_filter_ne]
  constructor
  · simp [submit_form_api, h]
  · rw [hmissing]
    simp [submit_form_api, h]

/-- C10 witness: an empty api_key yields 400 even when the store holds an
active account whose api_key is the empty string. -/
theorem submit_form_api_empty_key_witness :
    submit_form_api [("api_key", ""), ("message", "Hello")]
        [⟨1, "Ana", "ana@x.com", "", "tok", "pn", "+15550100", true⟩]
        (.exn "unreachable") 3 4 = (.error 400 "API key is required", []) ∧
    submit_form_api [("api_key", ""), ("message", "Hello")]
        [⟨1, "Ana", "ana@x.com", "", "tok", "pn", "+15550100", true⟩]
        (.exn "unreachable") 3 4 =
      submit_form_api
        ([("api_key", ""), ("message", "Hello")].filter fun p => p.1 != "api_key")
        [⟨1, "Ana", "ana@x.com", "", "tok", "pn", "+15550100", true⟩]
        (.exn "unreachable") 3 4 :=
  submit_form_api_empty_key [("api_key", ""), ("message", "Hello")]
    [⟨1, "Ana", "ana@x.com", "", "tok", "pn", "+15550100", true⟩]
    (.exn "unreachable") 3 4 (by decide)

/-- C7 counterexample: with a valid active key (authentication succeeds), a
provider 200-response whose JSON body is {"messages": []} makes the identifier
extraction of src/main.py line 293 index an empty list; the handler's
catch-all turns that into a 500 server error, not a success acknowledgement. -/
theorem submit_form_api_server_error_counterexample :
    find_active_by_api_key
        [⟨1, "Ana", "ana@x.com", "zf_abc", "tok", "pn", "+15550100", true⟩]
        "zf_abc" =
      some ⟨1, "Ana", "ana@x.com", "zf_abc", "tok", "pn", "+15550100", true⟩ ∧
    (submit_form_api [("api_key", "zf_abc"), ("message", "Hello")]
        [⟨1, "Ana", "ana@x.com", "zf_abc", "tok", "pn", "+15550100", true⟩]
        (.response 200 (some ⟨some []⟩) "") 3 4).1 =
      .error 500 "Failed to submit form" := by
  exact ⟨by decide, by decide⟩

/-- C7 amended: once authentication succeeds, the response is determined by
extracting an identifier from the dispatcher's result: a success
acknowledgement carrying that delivery identifier whenever extraction
succeeds — in particular on every non-200 provider status and on every
transport exception, where the mock identifier "wamid.mock_" plus the
timestamp is acknowledged — but a provider 200-response whose JSON "messages"
value is an empty list makes extraction raise, and the endpoint answers with
a 500 server error instead of success. -/
theorem submit_form_api_after_auth (form_data : List (String × String))
    (db : List User) (outcome : ProviderOutcome) (ts ts2 : Int) (user : User)
    (k : String) (hk : form_data.lookup "api_key" = some k) (hne : k ≠ "")
    (hu : find_active_by_api_key db k = some user) :
    (submit_form_api form_data db outcome ts ts2).1 =
      (match extractId (send_whatsapp_message user.whatsapp_token
          user.phone_number_id user.recipient_number
          (form_data.filter fun p => p.1 != "api_key") outcome ts).2 ts2 with
        | .ok mid => .ok true "Form submitted successfully" mid
        | .error _ => .error 500 "Failed to submit form") ∧
    (∀ status json text, status ≠ 200 →
      (submit_form_api form_data db (.response status json text) ts ts2).1 =
        .ok true "Form submitted successfully" ("wamid.mock_" ++ toString ts)) ∧
    (∀ msg, (submit_form_api form_data db (.exn msg) ts ts2).1 =
      .ok true "Form submitted successfully" ("wamid.mock_" ++ toString ts)) := by
  refine ⟨?_, ?_, ?_⟩
  · rw [submit_form_api, hk]
    simp only [hne, if_neg, hu]
    cases hext : extractId (send_whatsapp_message user.whatsapp_token
        user.phone_number_id user.recipient_number
        (form_data.filter fun p => p.1 != "api_key") outcome ts).2 ts2 with
    | ok mid => simp [hext]
    | error e => simp [hext]
  · intro status json text hst
    rw [submit_form_api, hk]
    simp only [hne, if_neg, hu]
    simp [send_whatsapp_message, hst, mockResult, extractId]
  · intro msg
    rw [submit_form_api, hk]
    simp only [hne, if_neg, hu]
    simp [send_whatsapp_message, mockResult, extractId]

/-- C7 witness: with a valid active key, a provider 503 still yields the
success acknowledgement carrying the mock identifier "wamid.mock_3". -/
theorem submit_form_api_after_auth_witness :
    (submit_form_api [("api_key", "zf_abc"), ("message", "Hello")]
        [⟨1, "Ana", "ana@x.com", "zf_abc", "tok", "pn", "+15550100", true⟩]
        (.response 503 none "Service Unavailable") 3 4).1 =
      .ok true "Form submitted successfully"
        ("wamid.mock_" ++ toString (3 : Int)) := by
  have h := submit_form_api_after_auth [("api_key", "zf_abc"), ("message", "Hello")]
    [⟨1, "Ana", "ana@x.com", "zf_abc", "tok", "pn", "+15550100", true⟩]
    (.response 503 none "Service Unavailable") 3 4
    ⟨1, "Ana", "ana@x.com", "zf_abc", "tok", "pn", "+15550100", true⟩
    "zf_abc" (by decide) (by decide) (by decide)
  exact h.2.1 503 none "Service Unavailable" (by decide)

/-- C4: registering an email not yet stored persists exactly one account for
it, and a second registration request with the same email (whatever its other
fields, random draw, assigned identity or notification behaviour) is answered
with the 400 Conflict "User with this email already exists" — a response
distinct from a field-validation error — while the store is left unchanged,
still holding exactly one account for that email. -/
theorem register_user_duplicate_email_conflict (u u2 : UserRegistration)
    (db : List User) (hex hex2 : String) (id1 id2 : Nat) (cfg cfg2 : SmtpConfig)
    (o1 o2 : EmailOutcome) (hfresh : countEmail db u.email = 0)
    (hemail : u2.email = u.email) :
    countEmail (register_user u db hex id1 cfg o1).2 u.email = 1 ∧
    register_user u2 (register_user u db hex id1 cfg o1).2 hex2 id2 cfg2 o2 =
      (.error 400 "User with this email already exists",
        (register_user u db hex id1 cfg o1).2) ∧
    countEmail
      (register_user u2 (register_user u db hex id1 cfg o1).2 hex2 id2 cfg2
        o2).2 u.email = 1 := by
  have hn := find?_email_of_countEmail_zero hfresh
  have hfil : db.filter (fun x => x.email == u.email) = [] := by
    rw [countEmail, List.length_eq_zero] at hfresh
    exact hfresh
  have h1 : countEmail (register_user u db hex id1 cfg o1).2 u.email = 1 := by
    simp [register_user, hn, countEmail, List.filter_append, hfil]
  have h2 : register_user u2 (register_user u db hex id1 cfg o1).2 hex2 id2 cfg2
      o2 = (.error 400 "User with this email already exists",
        (register_user u db hex id1 cfg o1).2) := by
    simp [register_user, hn, hemail, List.find?_append]
  exact ⟨h1, h2, by rw [h2]; exact h1⟩

/-- C4 witness: registering ana@x.com into an empty store and then registering
a second request with the same email yields the Conflict response and a store
holding exactly one account for ana@x.com. -/
theorem register_user_duplicate_email_conflict_witness :
    countEmail (register_user ⟨"Ana", "ana@x.com", "t1", "p1", "+1 555 0100", true⟩
        [] "0123456789abcdef0123456789abcdef" 1 ⟨none, none, none, none⟩
        .sent).2 "ana@x.com" = 1 ∧
    register_user ⟨"Bob", "ana@x.com", "t2", "p2", "+1 555 0101", true⟩
        (register_user ⟨"Ana", "ana@x.com", "t1", "p1", "+1 555 0100", true⟩
          [] "0123456789abcdef0123456789abcdef" 1 ⟨none, none, none, none⟩
          .sent).2 "ffffffffffffffffffffffffffffffff" 2 ⟨none, none, none, none⟩
        .sent =
      (.error 400 "User with this email already exists",
        (register_user ⟨"Ana", "ana@x.com", "t1", "p1", "+1 555 0100", true⟩
          [] "0123456789abcdef0123456789abcdef" 1 ⟨none, none, none, none⟩
          .sent).2) ∧
    countEmail
      (register_user ⟨"Bob", "ana@x.com", "t2", "p2", "+1 555 0101", true⟩
        (register_user ⟨"Ana", "ana@x.com", "t1", "p1", "+1 555 0100", true⟩
          [] "0123456789abcdef0123456789abcdef" 1 ⟨none, none, none, none⟩
          .sent).2 "ffffffffffffffffffffffffffffffff" 2 ⟨none, none, none, none⟩
        .sent).2 "ana@x.com" = 1 :=
  register_user_duplicate_email_conflict
    ⟨"Ana", "ana@x.com", "t1", "p1", "+1 555 0100", true⟩
    ⟨"Bob", "ana@x.com", "t2", "p2", "+1 555 0101", true⟩ []
    "0123456789abcdef0123456789abcdef" "ffffffffffffffffffffffffffffffff" 1 2
    ⟨none, none, none, none⟩ ⟨none, none, none, none⟩ .sent .sent (by decide)
    (by decide)

/-- C5: a successful registration answers with success, the fixed message, and
the new account's identity, name and email; and the response is the same
whatever random draw produced the API key, so the generated key appears
nowhere in the response body. -/
theorem register_user_success_response (u : UserRegistration) (db : List User)
    (hex : String) (new_id : Nat) (cfg : SmtpConfig) (o : EmailOutcome)
    (hfresh : db.find? (fun x => x.email == u.email) = none) :
    (register_user u db hex new_id cfg o).1 =
      .ok true "Registration successful! Check your email for your API key."
        new_id u.name u.email ∧
    ∀ hex', (register_user u db hex new_id cfg o).1 =
      (register_user u db hex' new_id cfg o).1 := by
  constructor
  · simp [register_user, hfresh]
  · intro hex'
    simp [register_user, hfresh]

/-- C5 witness: registering ana@x.com into an empty store returns success with
identity 1, name Ana and email ana@x.com, independently of the random draw. -/
theorem register_user_success_response_witness :
    (register_user ⟨"Ana", "ana@x.com", "t1", "p1", "+1 555 0100", true⟩ []
        "0123456789abcdef0123456789abcdef" 1 ⟨none, none, none, none⟩ .sent).1 =
      .ok true "Registration successful! Check your email for your API key."
        1 "Ana" "ana@x.com" ∧
    ∀ hex', (register_user ⟨"Ana", "ana@x.com", "t1", "p1", "+1 555 0100", true⟩
        [] "0123456789abcdef0123456789abcdef" 1 ⟨none, none, none, none⟩
        .sent).1 =
      (register_user ⟨"Ana", "ana@x.com", "t1", "p1", "+1 555 0100", true⟩ []
        hex' 1 ⟨none, none, none, none⟩ .sent).1 :=
  register_user_success_response
    ⟨"Ana", "ana@x.com", "t1", "p1", "+1 555 0100", true⟩ []
    "0123456789abcdef0123456789abcdef" 1 ⟨none, none, none, none⟩ .sent
    (by decide)

/-- C6: once a registration is persisted, a failing notification send changes
nothing: the caller still receives the success response, the whole outcome
(response and store) equals that of any other notification behaviour, and the
collaborator itself reports failure only through its discarded boolean return
value (with full credentials a failing send returns false rather than
raising). -/
theorem register_user_notification_failure_ignored (u : UserRegistration)
    (db : List User) (hex : String) (new_id : Nat) (cfg cfg' : SmtpConfig)
    (m : String) (o' : EmailOutcome)
    (hfresh : db.find? (fun x => x.email == u.email) = none) :
    (register_user u db hex new_id cfg (.failed m)).1 =
      .ok true "Registration successful! Check your email for your API key."
        new_id u.name u.email ∧
    register_user u db hex new_id cfg (.failed m) =
      register_user u db hex new_id cfg' o' ∧
    send_api_key_email u.email u.name (generate_api_key hex)
      ⟨some "smtp-relay.brevo.com", some "587", some "sender@x.com",
        some "secret"⟩ (.failed m) = false := by
  refine ⟨by simp [register_user, hfresh], rfl, by simp [send_api_key_email, truthy]⟩

/-- C6 witness: for a concrete registration, the SMTP failure outcome yields
the same success response and store as a successful send, and the collaborator
returns false on failure. -/
theorem register_user_notification_failure_ignored_witness :
    (register_user ⟨"Ana", "ana@x.com", "t1", "p1", "+1 555 0100", true⟩ []
        "0123456789abcdef0123456789abcdef" 1 ⟨none, none, none, none⟩
        (.failed "SMTPConnectError")).1 =
      .ok true "Registration successful! Check your email for your API key."
        1 "Ana" "ana@x.com" ∧
    register_user ⟨"Ana", "ana@x.com", "t1", "p1", "+1 555 0100", true⟩ []
        "0123456789abcdef0123456789abcdef" 1 ⟨none, none, none, none⟩
        (.failed "SMTPConnectError") =
      register_user ⟨"Ana", "ana@x.com", "t1", "p1", "+1 555 0100", true⟩ []
        "0123456789abcdef0123456789abcdef" 1
        ⟨some "smtp-relay.brevo.com", some "587", some "sender@x.com",
          some "secret"⟩ .sent ∧
    send_api_key_email "ana@x.com" "Ana"
      (generate_api_key "0123456789abcdef0123456789abcdef")
      ⟨some "smtp-relay.brevo.com", some "587", some "sender@x.com",
        some "secret"⟩ (.failed "SMTPConnectError") = false :=
  register_user_notification_failure_ignored
    ⟨"Ana", "ana@x.com", "t1", "p1", "+1 555 0100", true⟩ []
    "0123456789abcdef0123456789abcdef" 1 ⟨none, none, none, none⟩
    ⟨some "smtp-relay.brevo.com", some "587", some "sender@x.com",
      some "secret"⟩ "SMTPConnectError" .sent (by decide)

/-- C8: for any random draw with the shape of `uuid.uuid4().hex` (32 lowercase
hexadecimal characters), the generated API key is exactly the fixed prefix
"zf_" followed by the draw's first 24 characters — 24 lowercase hexadecimal
characters. -/
theorem generate_api_key_shape (hex : String) (hlen : hex.data.length = 32)
    (hhex : hex.data.all isLowerHexDigit = true) :
    (generate_api_key hex).data = 'z' :: 'f' :: '_' :: hex.data.take 24 ∧
    (hex.data.take 24).length = 24 ∧
    (hex.data.take 24).all isLowerHexDigit = true := by
  refine ⟨?_, ?_, ?_⟩
  · show ("zf_" ++ (⟨hex.data.take 24⟩ : String)).data = _
    rw [String.data_append]
    rfl
  · rw [List.length_take, hlen]
    decide
  · rw [List.all_eq_true] at hhex ⊢
    intro c hc
    exact hhex c (List.mem_of_mem_take hc)

/-- C8 witness: a concrete 32-character lowercase-hexadecimal draw produces
the key "zf_" plus its first 24 characters. -/
theorem generate_api_key_shape_witness :
    (generate_api_key "9f8a7b6c5d4e3f2a1b0c9d8e7f6a5b4c").data =
      'z' :: 'f' :: '_' :: "9f8a7b6c5d4e3f2a1b0c9d8e7f6a5b4c".data.take 24 ∧
    ("9f8a7b6c5d4e3f2a1b0c9d8e7f6a5b4c".data.take 24).length = 24 ∧
    ("9f8a7b6c5d4e3f2a1b0c9d8e7f6a5b4c".data.take 24).all isLowerHexDigit =
      true :=
  generate_api_key_shape "9f8a7b6c5d4e3f2a1b0c9d8e7f6a5b4c" (by decide)
    (by decide)

end ZapForm
